import Mathlib

/-!
Shallow embedding of the py_tbot tracking engine.

Sources embedded here:
- crypto-tracker-bot/src/core/blockchain/tracker.py (BlockchainTracker:
  _check_chain, _should_track, _process_transaction)
- src/core/blockchain/adapters/ethereum_adapter.py (EthereumAdapter.get_current_block)
- src/core/blockchain/adapters/token_methods.py (_get_erc20_transactions range computation)
- src/core/tracking/models.py (TrackingMode, TransactionType, TrackingConfig, Transaction)
- src/core/tracking/token_tracker.py (TokenTracker: add_tracking, remove_tracking,
  _should_notify_transaction, _notify_subscribers, _track_token loop body,
  _get_last_processed_block)

Python dicts are modeled as association lists with lookup semantics; Python sets
as duplicate-free lists; Python floats (token amounts, thresholds) as rationals
(the code only compares them, never relies on rounding); Python None-or-float
fields as Option. Timestamps, log messages and message formatting strings do
not affect any control flow that the claims touch and are elided where noted.
-/

namespace PyTbot

/-- Association-list update, modeling assignment to a Python dict key:
lookup of the key afterwards yields the new value, other keys are unchanged. -/
def mapInsert {α : Type} (k : String) (v : α) (m : List (String × α)) :
    List (String × α) :=
  (k, v) :: m.filter (fun p => p.1 != k)

/-- Association-list deletion, modeling `del d[k]` on a Python dict. -/
def mapErase {α : Type} (k : String) (m : List (String × α)) : List (String × α) :=
  m.filter (fun p => p.1 != k)

/-- models.py TrackingMode: buy_only, sell_only, both. -/
inductive TrackingMode where
  | buyOnly
  | sellOnly
  | both
  deriving DecidableEq, Repr

/-- models.py TransactionType: buy, sell, transfer, unknown. -/
inductive TransactionType where
  | buy
  | sell
  | transfer
  | unknown
  deriving DecidableEq, Repr

/-- models.py TrackingConfig. The created_at timestamp field is elided: it is
set from the wall clock and read by nothing the engine does. -/
structure TrackingConfig where
  tokenAddress : String
  blockchain : String
  mode : TrackingMode
  minAmount : Option ℚ := none
  maxAmount : Option ℚ := none
  whaleThreshold : Option ℚ := none
  enabled : Bool := true
  deriving DecidableEq, Repr

/-- models.py Transaction. Fields that only feed message formatting
(amount_usd, price, timestamp, gas_used, gas_price, is_whale, dex_name)
are elided: _should_notify_transaction and the _track_token loop read only
the fields kept here. -/
structure Transaction where
  hash : String
  blockchain : String
  tokenAddress : String
  tokenSymbol : String
  transactionType : TransactionType
  fromAddress : String
  toAddress : String
  amount : ℚ
  blockNumber : Nat
  deriving DecidableEq, Repr

/-- Python truthiness of an Optional[float]: None and 0.0 are falsy, every
other value is truthy. token_tracker.py guards its amount-bound checks with
`if config.min_amount and ...` / `if config.max_amount and ...`. -/
def pyTruthy : Option ℚ → Bool
  | none => false
  | some q => q != 0

/-- token_tracker.py TokenTracker._should_notify_transaction: direction-mode
filter, then the min/max amount filters, each guarded by Python truthiness of
the bound. -/
def shouldNotifyTransaction (transaction : Transaction) (config : TrackingConfig) :
    Bool :=
  if config.mode == TrackingMode.buyOnly &&
      transaction.transactionType != TransactionType.buy then
    false
  else if config.mode == TrackingMode.sellOnly &&
      transaction.transactionType != TransactionType.sell then
    false
  else if pyTruthy config.minAmount &&
      decide (transaction.amount < config.minAmount.getD 0) then
    false
  else if pyTruthy config.maxAmount &&
      decide (config.maxAmount.getD 0 < transaction.amount) then
    false
  else
    true

/-- token_tracker.py TokenTracker._notify_subscribers: collects every user
whose subscription set contains the tracking id and sends each one the
formatted message for the transaction (formatting elided; each emitted pair
is one send). -/
def notifySubscribers (subscribers : List (String × List String))
    (trackingId : String) (tx : Transaction) : List (String × Transaction) :=
  (subscribers.filter (fun p => p.2.contains trackingId)).map (fun p => (p.1, tx))

/-- Python max over the block numbers of a nonempty transaction list, as in
`max(tx.block_number for tx in transactions)` (block numbers are Nat, so
folding from 0 agrees with max on a nonempty list). -/
def maxBlockNumber (transactions : List Transaction) : Nat :=
  List.foldl (fun acc tx => max acc tx.blockNumber) 0 transactions

/-- Observable outcome of one iteration of the _track_token while-loop body:
the notification sends attempted, and the checkpoint value written by
_save_last_processed_block (none when the write is skipped). -/
structure TrackCycleResult where
  notifications : List (String × Transaction)
  savedBlock : Option Nat
  deriving DecidableEq, Repr

/-- One iteration of the token_tracker.py _track_token while-loop body, given
the batch returned by _get_token_transactions: every transaction of the batch
that passes _should_notify_transaction triggers _notify_subscribers, then, if
the batch is nonempty, the checkpoint is written with the max block number of
the batch (matches or not). -/
def trackTokenCycle (config : TrackingConfig)
    (subscribers : List (String × List String)) (trackingId : String)
    (transactions : List Transaction) : TrackCycleResult :=
  { notifications :=
      (transactions.filter (fun tx => shouldNotifyTransaction tx config)).flatMap
        (fun tx => notifySubscribers subscribers trackingId tx)
    savedBlock :=
      if transactions.isEmpty then none else some (maxBlockNumber transactions) }

/-- token_tracker.py TokenTracker._get_last_processed_block: reads the cache
key for the tracking id and returns the stored height, or 0 when nothing is
stored (the cache holds decimal strings written by str(block_number); the
parse round-trip is the identity and is elided). -/
def getLastProcessedBlock (stored : Option Nat) : Nat :=
  match stored with
  | some blockData => blockData
  | none => 0

/-- tracker.py raw transaction record as read by _should_track and
_process_transaction: dict keys currency, to, value, hash. -/
structure EthTx where
  currency : String
  toAddr : String
  value : ℚ
  hash : String
  deriving DecidableEq, Repr

/-- tracker.py BlockchainTracker.tracked_currencies, the literal list from
the constructor. -/
def trackedCurrencies : List String :=
  ["BNB", "ARB", "PLS", "POL", "TRX", "SOL", "DAI",
   "ALGO", "NEAR", "ETH", "OP", "EOS", "AVAX", "FTM",
   "PI", "TON", "DOT", "USDT", "USDC", "DOGE",
   "OSMO", "ATOM"]

/-- Python str.upper, restricted to the ASCII case mapping actually exercised
by the currency symbols and addresses in this code, applied per character. -/
def pyUpper (s : String) : String :=
  String.mk (s.data.map Char.toUpper)

/-- Python str.lower, ASCII case mapping applied per character. -/
def pyLower (s : String) : String :=
  String.mk (s.data.map Char.toLower)

/-- tracker.py BlockchainTracker._should_track: the currency (uppercased) is
one of the tracked currencies and the recipient is a tracked wallet for the
chain. -/
def shouldTrack (tx : EthTx) (trackedWallets : List String) : Bool :=
  trackedCurrencies.any (fun currency => pyUpper tx.currency == currency) &&
  trackedWallets.contains tx.toAddr

/-- tracker.py BlockchainTracker._process_transaction, applied to one matching
transaction. Its whole body — rate lookup, amount scaling, message formatting,
and notifier.send — is wrapped in `try: ... except Exception`: a failing send
is logged and swallowed, so no exception ever reaches the _check_chain loop.
The returned Bool records whether the send succeeded; rate and message text
are elided (they feed only the message string). -/
def processTransaction (notifyOk : EthTx → Bool) (tx : EthTx) : Bool :=
  let _amount : ℚ :=
    if tx.currency != "TRX" then tx.value / 1000000000000000000 else tx.value
  notifyOk tx

/-- Observable outcome of one tracker.py _check_chain call: the updated
last_blocks dict, the (start, end) arguments passed to
adapter.get_transactions (none when no fetch happened), and the send outcome
of each processed matching transaction, in order. -/
structure CheckChainOutcome where
  lastBlocks : List (String × Nat)
  fetchedRange : Option (Nat × Nat)
  notifyResults : List Bool

/-- tracker.py BlockchainTracker._check_chain. `currentBlock` is the value
returned by the adapter get_current_block; `fetch` is adapter.get_transactions
(which catches its own errors and returns a plain list); `trackedWallets` is
the wallet list read from the database; `notifyOk` gives the outcome of
notifier.send for each transaction. last_block defaults to current_block when
the chain has no entry, the fetch range is (last_block + 1, current_block)
with no cap, and last_blocks[chain] is assigned current_block at the end of
the branch unconditionally — _process_transaction swallows its own errors. -/
def checkChain (lastBlocks : List (String × Nat)) (chainName : String)
    (currentBlock : Nat) (fetch : Nat → Nat → List EthTx)
    (trackedWallets : List String) (notifyOk : EthTx → Bool) :
    CheckChainOutcome :=
  let lastBlock := (List.lookup chainName lastBlocks).getD currentBlock
  if currentBlock > lastBlock then
    let transactions := fetch (lastBlock + 1) currentBlock
    let tracked := transactions.filter (fun tx => shouldTrack tx trackedWallets)
    { lastBlocks := mapInsert chainName currentBlock lastBlocks
      fetchedRange := some (lastBlock + 1, currentBlock)
      notifyResults := tracked.map (fun tx => processTransaction notifyOk tx) }
  else
    { lastBlocks := lastBlocks
      fetchedRange := none
      notifyResults := [] }

/-- The per-cycle environment of one _check_chain call: the height the adapter
reports, the adapter fetch function, the tracked wallet list, and the notifier
outcome for each transaction. -/
structure CycleInput where
  currentBlock : Nat
  fetch : Nat → Nat → List EthTx
  trackedWallets : List String
  notifyOk : EthTx → Bool

/-- A sequence of _check_chain cycles on one chain, threading the last_blocks
dict through (the start_tracking loop with the other chains elided: they touch
different keys). -/
def runCycles (chainName : String) (lastBlocks : List (String × Nat)) :
    List CycleInput → List (String × Nat)
  | [] => lastBlocks
  | c :: rest =>
      runCycles chainName
        (checkChain lastBlocks chainName c.currentBlock c.fetch
          c.trackedWallets c.notifyOk).lastBlocks
        rest

/-- ethereum_adapter.py EthereumAdapter.get_current_block.
`connectionError` models `self.connection_error or not self.w3` (both set
together in the constructor); `blockNumber` models the RPC call
`self.w3.eth.block_number`, which either yields a height or raises. Both
failure paths log and return 0. -/
def getCurrentBlock (connectionError : Bool) (blockNumber : Except String Nat) :
    Nat :=
  if connectionError then 0
  else
    match blockNumber with
    | Except.ok n => n
    | Except.error _ => 0

/-- tracker.py checkpoint read inside _check_chain:
`self.last_blocks.get(chain_name, current_block)` — the default for a chain
with no stored entry is the current height. -/
def loadCheckpoint (lastBlocks : List (String × Nat)) (chainName : String)
    (currentBlock : Nat) : Nat :=
  (List.lookup chainName lastBlocks).getD currentBlock

/-- token_methods.py _get_erc20_transactions range computation:
`to_block = min(from_block + 1000, latest_block)` and the Transfer event
filter runs over fromBlock=from_block, toBlock=to_block. -/
def erc20FetchRange (fromBlock latestBlock : Nat) : Nat × Nat :=
  (fromBlock, min (fromBlock + 1000) latestBlock)

/-- The TokenTracker mutable state touched by add_tracking / remove_tracking:
tracking_configs (dict tracking_id → TrackingConfig), active_trackers (dict
tracking_id → task, only key membership observed here), subscribers (dict
user_id → set of tracking_ids). -/
structure TokenTrackerState where
  trackingConfigs : List (String × TrackingConfig)
  activeTrackers : List String
  subscribers : List (String × List String)

/-- token_tracker.py TokenTracker._get_tracking_id:
`f"{blockchain}:{token_address.lower()}"`. -/
def getTrackingId (blockchain tokenAddress : String) : String :=
  blockchain ++ ":" ++ pyLower tokenAddress

/-- token_tracker.py TokenTracker.add_tracking: builds a fresh TrackingConfig
from the caller arguments (enabled defaults to True), assigns it to
tracking_configs[tracking_id] unconditionally, adds the tracking id to the
caller subscription set, and starts a tracking task when none is active
(_start_tracking: returns early if already active; the config just stored is
enabled, so the task is created). Cache persistence is elided. -/
def addTracking (state : TokenTrackerState) (userId blockchain tokenAddress : String)
    (mode : TrackingMode) (minAmount maxAmount whaleThreshold : Option ℚ) :
    TokenTrackerState :=
  let trackingId := getTrackingId blockchain tokenAddress
  let config : TrackingConfig :=
    { tokenAddress := pyLower tokenAddress
      blockchain := blockchain
      mode := mode
      minAmount := minAmount
      maxAmount := maxAmount
      whaleThreshold := whaleThreshold
      enabled := true }
  let trackingConfigs := mapInsert trackingId config state.trackingConfigs
  let userSubs := (List.lookup userId state.subscribers).getD []
  let subscribers :=
    mapInsert userId
      (if userSubs.contains trackingId then userSubs else trackingId :: userSubs)
      state.subscribers
  let activeTrackers :=
    if state.activeTrackers.contains trackingId then state.activeTrackers
    else state.activeTrackers ++ [trackingId]
  { trackingConfigs := trackingConfigs
    activeTrackers := activeTrackers
    subscribers := subscribers }

/-- First step of token_tracker.py remove_tracking: if the caller is a
subscriber and the tracking id is in its set, remove it, deleting the set when
it becomes empty. -/
def removeUserSubscription (subscribers : List (String × List String))
    (userId trackingId : String) : List (String × List String) :=
  match List.lookup userId subscribers with
  | some subs =>
      if subs.contains trackingId then
        let remaining := subs.filter (fun t => t != trackingId)
        if remaining.isEmpty then mapErase userId subscribers
        else mapInsert userId remaining subscribers
      else subscribers
  | none => subscribers

/-- token_tracker.py TokenTracker.remove_tracking: drops the tracking id from
the caller subscription set (deleting the set when it becomes empty), then, if
no remaining subscription set contains the tracking id, cancels and removes
the active task and deletes the config. Cache persistence is elided. -/
def removeTracking (state : TokenTrackerState)
    (userId blockchain tokenAddress : String) : TokenTrackerState :=
  let trackingId := getTrackingId blockchain tokenAddress
  let subscribers := removeUserSubscription state.subscribers userId trackingId
  let stillSubscribed := subscribers.any (fun p => p.2.contains trackingId)
  if stillSubscribed then
    { state with subscribers := subscribers }
  else
    { trackingConfigs := mapErase trackingId state.trackingConfigs
      activeTrackers := state.activeTrackers.filter (fun t => t != trackingId)
      subscribers := subscribers }

/-! Association-list lemmas. -/

theorem lookup_filter_ne {α : Type} (k kq : String) (m : List (String × α))
    (h : kq ≠ k) :
    List.lookup kq (m.filter (fun p => p.1 != k)) = List.lookup kq m := by
  induction m with
  | nil => rfl
  | cons p rest ih =>
      obtain ⟨a, b⟩ := p
      by_cases ha : a = k
      · subst ha
        have h1 : (((a, b) : String × α).1 != a) = false := by simp
        have h2 : (kq == a) = false := by simp [h]
        simp [List.filter_cons, h1, List.lookup, h2, ih]
      · have h1 : (((a, b) : String × α).1 != k) = true := by simp [ha]
        simp only [List.filter_cons, h1, if_true, List.lookup]
        cases hkq : (kq == a) <;> simp [ih]

theorem lookup_mapInsert_self {α : Type} (k : String) (v : α)
    (m : List (String × α)) :
    List.lookup k (mapInsert k v m) = some v := by
  simp [mapInsert, List.lookup]

theorem lookup_mapInsert_ne {α : Type} (k kq : String) (v : α)
    (m : List (String × α)) (h : kq ≠ k) :
    List.lookup kq (mapInsert k v m) = List.lookup kq m := by
  have h2 : (kq == k) = false := by simp [h]
  simp [mapInsert, List.lookup, h2, lookup_filter_ne k kq m h]

theorem lookup_mapErase_self {α : Type} (k : String) (m : List (String × α)) :
    List.lookup k (mapErase k m) = none := by
  induction m with
  | nil => rfl
  | cons p rest ih =>
      obtain ⟨a, b⟩ := p
      by_cases ha : a = k
      · subst ha
        have h1 : (((a, b) : String × α).1 != a) = false := by simp
        simp [mapErase, List.filter_cons, h1] at ih ⊢
        exact ih
      · have h1 : (((a, b) : String × α).1 != k) = true := by simp [ha]
        have h2 : (k == a) = false := by simp [Ne.symm ha]
        simp [mapErase, List.filter_cons, h1, List.lookup, h2] at ih ⊢
        exact ih

theorem lookup_mapErase_ne {α : Type} (k kq : String) (m : List (String × α))
    (h : kq ≠ k) :
    List.lookup kq (mapErase k m) = List.lookup kq m :=
  lookup_filter_ne k kq m h

theorem mem_of_lookup {α : Type} (k : String) (v : α) (m : List (String × α))
    (h : List.lookup k m = some v) : (k, v) ∈ m := by
  induction m with
  | nil => simp [List.lookup] at h
  | cons p rest ih =>
      obtain ⟨a, b⟩ := p
      by_cases hk : k = a
      · subst hk
        simp [List.lookup] at h
        simp [h]
      · have h2 : (k == a) = false := by simp [hk]
        simp [List.lookup, h2] at h
        exact List.mem_cons_of_mem _ (ih h)

theorem contains_filter_ne_self (l : List String) (t : String) :
    (l.filter (fun x => x != t)).contains t = false := by
  induction l with
  | nil => rfl
  | cons a rest ih =>
      by_cases ha : a = t
      · subst ha
        simp [List.filter_cons]
      · have h1 : (a != t) = true := by simp [ha]
        have h2 : (t == a) = false := by simp [Ne.symm ha]
        simp [List.filter_cons, h1, List.contains_cons, h2, ih, Ne.symm ha]

/-! Concrete sample values used to instantiate theorems. -/

/-- Sample rule: buy_only on bsc token 0xaaa, no amount bounds. -/
def cfgBuyOnly : TrackingConfig :=
  { tokenAddress := "0xaaa", blockchain := "bsc", mode := TrackingMode.buyOnly }

/-- Sample rule: both directions, no amount bounds. -/
def cfgBoth : TrackingConfig :=
  { tokenAddress := "0xaaa", blockchain := "bsc", mode := TrackingMode.both }

/-- Sample rule: both directions, min_amount = 200. -/
def cfgMin200 : TrackingConfig :=
  { tokenAddress := "0xaaa", blockchain := "bsc", mode := TrackingMode.both,
    minAmount := some 200 }

/-- Sample rule: both directions, max_amount = 0.0 (a present but falsy bound). -/
def cfgMaxZero : TrackingConfig :=
  { tokenAddress := "0xaaa", blockchain := "bsc", mode := TrackingMode.both,
    maxAmount := some 0 }

/-- Sample sell transaction, amount 100. -/
def txSell100 : Transaction :=
  { hash := "0xh1", blockchain := "bsc", tokenAddress := "0xaaa",
    tokenSymbol := "TKN", transactionType := TransactionType.sell,
    fromAddress := "0xf", toAddress := "0xt", amount := 100, blockNumber := 7 }

/-- Sample buy transaction, amount 100. -/
def txBuy100 : Transaction :=
  { hash := "0xh2", blockchain := "bsc", tokenAddress := "0xaaa",
    tokenSymbol := "TKN", transactionType := TransactionType.buy,
    fromAddress := "0xf", toAddress := "0xt", amount := 100, blockNumber := 7 }

/-- Sample buy transaction, amount 250. -/
def txBuy250 : Transaction :=
  { hash := "0xh3", blockchain := "bsc", tokenAddress := "0xaaa",
    tokenSymbol := "TKN", transactionType := TransactionType.buy,
    fromAddress := "0xf", toAddress := "0xt", amount := 250, blockNumber := 9 }

/-- Sample matching tracker.py raw transaction: tracked currency ETH sent to
wallet 0xw1. -/
def ethTxMatch : EthTx :=
  { currency := "ETH", toAddr := "0xw1", value := 5, hash := "0xh9" }

/-! Claim theorems. -/

/-- C4 counterexample: EthereumAdapter.get_current_block returns 0 both when
the RPC call raises and when the connection flag is set even though the node
would report a height — 0 is silently used as the failure sentinel, which the
claim says never happens. -/
theorem C4_counterexample :
    getCurrentBlock false (Except.error "timeout") = 0 ∧
    getCurrentBlock true (Except.ok 123) = 0 :=
  ⟨rfl, rfl⟩

/-- C4 amended: get_current_block signals failure by returning 0 (after
logging), not by an error result: every connection-error call and every
raising RPC call returns 0, and a successful call returns the reported
height — so a returned 0 is ambiguous between failure and a genuine height 0. -/
theorem C4_zero_sentinel :
    (∀ e, getCurrentBlock true e = 0) ∧
    (∀ msg, getCurrentBlock false (Except.error msg) = 0) ∧
    (∀ n, getCurrentBlock false (Except.ok n) = n) :=
  ⟨fun _ => rfl, fun _ => rfl, fun _ => rfl⟩

/-- C5 counterexample: TokenTracker._get_last_processed_block returns 0 for a
tracking id with no stored checkpoint, not the current height (e.g. 500): the
token-tracking path does start from block 0 on first run. -/
theorem C5_counterexample :
    getLastProcessedBlock none = 0 ∧ (0 : Nat) ≠ 500 :=
  ⟨rfl, by decide⟩

/-- C5 amended: the two checkpoint loaders differ. The blockchain tracker
read (last_blocks.get(chain, current_block)) defaults to the current height
when the chain has no stored entry, as the claim says; but the token tracker
loader (_get_last_processed_block) returns 0 unconditionally when nothing is
stored. -/
theorem C5_load_defaults :
    (∀ (lastBlocks : List (String × Nat)) (chainName : String) (currentBlock : Nat),
       List.lookup chainName lastBlocks = none →
       loadCheckpoint lastBlocks chainName currentBlock = currentBlock) ∧
    getLastProcessedBlock none = 0 := by
  constructor
  · intro lastBlocks chainName currentBlock h
    simp [loadCheckpoint, h]
  · rfl

/-- C5 witness: instantiates the amended claim at a one-chain store holding
only bsc, loading ethereum with current height 500. -/
theorem C5_load_defaults_witness :
    loadCheckpoint [("bsc", 50)] "ethereum" 500 = 500 :=
  C5_load_defaults.1 [("bsc", 50)] "ethereum" 500 (by decide)

/-- C6: with direction mode buy_only every transaction classified sell is
rejected, and with sell_only every buy is rejected: _should_notify_transaction
returns False, and a _track_token pass over that transaction emits no
notification for the rule. -/
theorem C6_direction_filter (tx : Transaction) (config : TrackingConfig)
    (h : (config.mode = TrackingMode.buyOnly ∧
            tx.transactionType = TransactionType.sell) ∨
         (config.mode = TrackingMode.sellOnly ∧
            tx.transactionType = TransactionType.buy)) :
    shouldNotifyTransaction tx config = false ∧
    ∀ (subscribers : List (String × List String)) (trackingId : String),
      (trackTokenCycle config subscribers trackingId [tx]).notifications = [] := by
  have hf : shouldNotifyTransaction tx config = false := by
    rcases h with ⟨hm, ht⟩ | ⟨hm, ht⟩ <;> simp [shouldNotifyTransaction, hm, ht]
  refine ⟨hf, ?_⟩
  intro subscribers trackingId
  simp [trackTokenCycle, List.filter_cons, hf]

/-- C6 witness: a sell of amount 100 against the buy_only rule, with one
subscriber present. -/
theorem C6_direction_filter_witness :
    shouldNotifyTransaction txSell100 cfgBuyOnly = false ∧
    (trackTokenCycle cfgBuyOnly [("alice", ["bsc:0xaaa"])] "bsc:0xaaa"
        [txSell100]).notifications = [] :=
  ⟨(C6_direction_filter txSell100 cfgBuyOnly (Or.inl ⟨rfl, rfl⟩)).1,
   (C6_direction_filter txSell100 cfgBuyOnly (Or.inl ⟨rfl, rfl⟩)).2
     [("alice", ["bsc:0xaaa"])] "bsc:0xaaa"⟩

/-- Characterization of _should_notify_transaction: it accepts exactly when
the direction mode allows the transaction type and each truthy amount bound
is respected. -/
theorem shouldNotify_true_iff (tx : Transaction) (config : TrackingConfig) :
    shouldNotifyTransaction tx config = true ↔
      (¬(config.mode = TrackingMode.buyOnly ∧
           tx.transactionType ≠ TransactionType.buy) ∧
       ¬(config.mode = TrackingMode.sellOnly ∧
           tx.transactionType ≠ TransactionType.sell) ∧
       (pyTruthy config.minAmount = true → config.minAmount.getD 0 ≤ tx.amount) ∧
       (pyTruthy config.maxAmount = true → tx.amount ≤ config.maxAmount.getD 0)) := by
  unfold shouldNotifyTransaction
  split_ifs with h1 h2 h3 h4 <;>
    simp_all [Bool.and_eq_true, beq_iff_eq, bne_iff_ne, decide_eq_true_iff, not_lt]

/-- C7 counterexample: a rule whose max_amount bound is present but equal to
0.0 matches a transaction of amount 100, although 100 is not within
[min_amount, 0]: the Python truthiness guard `if config.max_amount` skips a
zero bound, so the claim as stated fails. -/
theorem C7_counterexample :
    shouldNotifyTransaction txBuy100 cfgMaxZero = true ∧ ¬((100 : ℚ) ≤ 0) := by
  exact ⟨rfl, by decide⟩

/-- C7 amended: the amount window is enforced only for bounds that are
present and nonzero (a 0.0 bound is treated like an absent one by Python
truthiness); within that reading the claim holds: a match implies the amount
respects every nonzero bound, a rule with min_amount = 200 never matches a
transaction of amount 100, and a matchless nonempty batch still advances the
checkpoint. -/
theorem C7_amount_bounds :
    (∀ (tx : Transaction) (config : TrackingConfig),
       shouldNotifyTransaction tx config = true →
       (∀ m, config.minAmount = some m → m ≠ 0 → m ≤ tx.amount) ∧
       (∀ m, config.maxAmount = some m → m ≠ 0 → tx.amount ≤ m)) ∧
    (∀ (tx : Transaction) (config : TrackingConfig),
       config.minAmount = some 200 → tx.amount = 100 →
       shouldNotifyTransaction tx config = false) ∧
    (∀ (config : TrackingConfig) (subscribers : List (String × List String))
       (trackingId : String) (transactions : List Transaction),
       transactions ≠ [] →
       (trackTokenCycle config subscribers trackingId transactions).savedBlock =
         some (maxBlockNumber transactions)) := by
  refine ⟨?_, ?_, ?_⟩
  · intro tx config h
    rw [shouldNotify_true_iff] at h
    obtain ⟨-, -, hmin, hmax⟩ := h
    constructor
    · intro m hm hm0
      have ht : pyTruthy config.minAmount = true := by
        simp [pyTruthy, hm, hm0]
      have := hmin ht
      rwa [hm, Option.getD_some] at this
    · intro m hm hm0
      have ht : pyTruthy config.maxAmount = true := by
        simp [pyTruthy, hm, hm0]
      have := hmax ht
      rwa [hm, Option.getD_some] at this
  · intro tx config hmin hamt
    cases h : shouldNotifyTransaction tx config with
    | false => rfl
    | true =>
        rw [shouldNotify_true_iff] at h
        obtain ⟨-, -, hm, -⟩ := h
        have ht : pyTruthy config.minAmount = true := by
          simp [pyTruthy, hmin]
        have h200 := hm ht
        rw [hmin, Option.getD_some, hamt] at h200
        norm_num at h200
  · intro config subscribers trackingId transactions h
    cases transactions with
    | nil => exact absurd rfl h
    | cons t rest => rfl

/-- C7 witness: a match at amount 250 respects the min bound 200; amount 100
against min 200 is rejected; and a one-element matchless batch still writes
checkpoint 7. -/
theorem C7_amount_bounds_witness :
    ((200 : ℚ) ≤ 250) ∧
    shouldNotifyTransaction txBuy100 cfgMin200 = false ∧
    (trackTokenCycle cfgMin200 [("alice", ["bsc:0xaaa"])] "bsc:0xaaa"
        [txBuy100]).savedBlock = some 7 :=
  ⟨(C7_amount_bounds.1 txBuy250 cfgMin200 (by decide)).1 200 rfl (by decide),
   C7_amount_bounds.2.1 txBuy100 cfgMin200 rfl rfl,
   C7_amount_bounds.2.2 cfgMin200 [("alice", ["bsc:0xaaa"])] "bsc:0xaaa"
     [txBuy100] (by decide)⟩

/-- Length of a flatMap whose function has constant output length. -/
theorem length_flatMap_const {α β : Type} (f : α → List β) (c : Nat)
    (hf : ∀ a, (f a).length = c) (l : List α) :
    (l.flatMap f).length = l.length * c := by
  induction l with
  | nil => simp
  | cons a rest ih =>
      simp only [List.flatMap_cons, List.length_append, List.length_cons, hf, ih]
      ring

/-- C8 counterexample: a batch in which the same transaction (same hash)
appears twice produces two notifications for the single matching rule and its
single subscriber — not at most one — because the _track_token loop iterates
over raw batch elements with no deduplication by hash. -/
theorem C8_counterexample :
    (trackTokenCycle cfgBoth [("alice", ["bsc:0xaaa"])] "bsc:0xaaa"
        [txBuy100, txBuy100]).notifications.length = 2 ∧ ¬((2 : Nat) ≤ 1) := by
  exact ⟨rfl, by decide⟩

/-- C8 amended: there is no deduplication by transaction hash within a batch:
every occurrence in the batch that passes the filter triggers one
notification per subscriber of the rule, so the number of sends is
(passing occurrences) × (subscribers of the tracking id). -/
theorem C8_no_dedup (config : TrackingConfig)
    (subscribers : List (String × List String)) (trackingId : String)
    (transactions : List Transaction) :
    (trackTokenCycle config subscribers trackingId transactions).notifications.length =
      (transactions.filter (fun tx => shouldNotifyTransaction tx config)).length *
        (subscribers.filter (fun p => p.2.contains trackingId)).length := by
  exact length_flatMap_const _ _ (fun tx => by simp [notifySubscribers]) _

/-- C1 counterexample: a cycle over range [51, 55] whose only fetched
transaction matches (tracked currency, tracked wallet) and whose notification
send fails: _process_transaction swallows the failure, so _check_chain still
sets last_blocks[chain] to 55 — the checkpoint does not stay at 50 and the
range is not refetched. -/
theorem C1_counterexample :
    (checkChain [("ethereum", 50)] "ethereum" 55 (fun _ _ => [ethTxMatch])
        ["0xw1"] (fun _ => false)).notifyResults = [false] ∧
    List.lookup "ethereum"
        (checkChain [("ethereum", 50)] "ethereum" 55 (fun _ _ => [ethTxMatch])
          ["0xw1"] (fun _ => false)).lastBlocks = some 55 ∧
    some (55 : Nat) ≠ some 50 := by
  refine ⟨by decide, by decide, by decide⟩

/-- C1 amended: notification failure never blocks the checkpoint. When the
chain has a stored checkpoint below the current height, _check_chain advances
last_blocks[chain] to the current height whatever the notifier outcomes are
(the exception is caught inside _process_transaction), and the resulting
last_blocks dict is independent of the notifier outcome function — delivery
of the scanned range is at-most-once, not at-least-once. -/
theorem C1_checkpoint_unaffected_by_notify (lastBlocks : List (String × Nat))
    (chainName : String) (currentBlock : Nat) (fetch : Nat → Nat → List EthTx)
    (trackedWallets : List String) (notifyOk notifyOk2 : EthTx → Bool)
    (lastBlock : Nat)
    (h : List.lookup chainName lastBlocks = some lastBlock)
    (hlt : lastBlock < currentBlock) :
    List.lookup chainName
        (checkChain lastBlocks chainName currentBlock fetch trackedWallets
          notifyOk).lastBlocks = some currentBlock ∧
    (checkChain lastBlocks chainName currentBlock fetch trackedWallets
        notifyOk).lastBlocks =
      (checkChain lastBlocks chainName currentBlock fetch trackedWallets
        notifyOk2).lastBlocks := by
  constructor
  · simp [checkChain, h, hlt, lookup_mapInsert_self]
  · simp [checkChain, h, hlt]

/-- C1 witness: the failed-notifier cycle over [51, 55] advances the
checkpoint to 55, and yields the same last_blocks as an all-success cycle. -/
theorem C1_checkpoint_unaffected_by_notify_witness :
    List.lookup "ethereum"
        (checkChain [("ethereum", 50)] "ethereum" 55 (fun _ _ => [ethTxMatch])
          ["0xw1"] (fun _ => false)).lastBlocks = some 55 ∧
    (checkChain [("ethereum", 50)] "ethereum" 55 (fun _ _ => [ethTxMatch])
        ["0xw1"] (fun _ => false)).lastBlocks =
      (checkChain [("ethereum", 50)] "ethereum" 55 (fun _ _ => [ethTxMatch])
        ["0xw1"] (fun _ => true)).lastBlocks :=
  C1_checkpoint_unaffected_by_notify [("ethereum", 50)] "ethereum" 55
    (fun _ _ => [ethTxMatch]) ["0xw1"] (fun _ => false) (fun _ => true) 50
    (by decide) (by decide)

/-- C2 counterexample: with checkpoint 100 and current height 10000,
_check_chain passes (101, 10000) to adapter.get_transactions — the range is
not capped to [101, 600]; no max_blocks_per_scan limit exists in the code. -/
theorem C2_counterexample :
    (checkChain [("ethereum", 100)] "ethereum" 10000 (fun _ _ => []) []
        (fun _ => true)).fetchedRange = some (101, 10000) ∧
    some ((101 : Nat), (10000 : Nat)) ≠ some (101, 600) := by
  refine ⟨rfl, by decide⟩

/-- C2 amended: _check_chain always fetches the uncapped range
[checkpoint + 1, current_height]; the other cited fetch,
_get_erc20_transactions, runs its Transfer-event filter over
[from_block, min(from_block + 1000, latest_block)] — a 1000-block cap
starting at from_block itself, not checkpoint + 1, and not 500. No
max_blocks_per_scan = 500 cap exists in either cited code path. -/
theorem C2_fetch_range :
    (∀ (lastBlocks : List (String × Nat)) (chainName : String)
       (currentBlock : Nat) (fetch : Nat → Nat → List EthTx)
       (trackedWallets : List String) (notifyOk : EthTx → Bool)
       (lastBlock : Nat),
       List.lookup chainName lastBlocks = some lastBlock →
       lastBlock < currentBlock →
       (checkChain lastBlocks chainName currentBlock fetch trackedWallets
           notifyOk).fetchedRange = some (lastBlock + 1, currentBlock)) ∧
    (∀ fromBlock latestBlock : Nat,
       (erc20FetchRange fromBlock latestBlock).1 = fromBlock ∧
       (fromBlock + 1000 ≤ latestBlock →
         (erc20FetchRange fromBlock latestBlock).2 = fromBlock + 1000) ∧
       (latestBlock ≤ fromBlock + 1000 →
         (erc20FetchRange fromBlock latestBlock).2 = latestBlock)) := by
  constructor
  · intro lastBlocks chainName currentBlock fetch trackedWallets notifyOk
      lastBlock h hlt
    simp [checkChain, h, hlt]
  · intro fromBlock latestBlock
    refine ⟨rfl, fun h => ?_, fun h => ?_⟩
    · simp [erc20FetchRange, Nat.min_eq_left h]
    · simp [erc20FetchRange, Nat.min_eq_right h]

/-- C2 witness: checkpoint 100, height 10000 gives the uncapped range
(101, 10000), and the ERC20 fetch from block 100 with latest 10000 stops at
1100. -/
theorem C2_fetch_range_witness :
    (checkChain [("bsc", 100)] "bsc" 10000 (fun _ _ => []) []
        (fun _ => true)).fetchedRange = some (101, 10000) ∧
    (erc20FetchRange 100 10000).2 = 1100 :=
  ⟨C2_fetch_range.1 [("bsc", 100)] "bsc" 10000 (fun _ _ => []) []
      (fun _ => true) 100 (by decide) (by decide),
   (C2_fetch_range.2 100 10000).2.1 (by decide)⟩

/-- C3 counterexample: a cycle whose only matching transaction fails to send
still advances the checkpoint from 60 to 66 — the checkpoint advances to a
height whose matches were not successfully handed to the notification sink,
contradicting the only-after-successful-notify half of the claim. -/
theorem C3_counterexample :
    (checkChain [("polygon", 60)] "polygon" 66 (fun _ _ => [ethTxMatch])
        ["0xw1"] (fun _ => false)).notifyResults = [false] ∧
    List.lookup "polygon"
        (checkChain [("polygon", 60)] "polygon" 66 (fun _ _ => [ethTxMatch])
          ["0xw1"] (fun _ => false)).lastBlocks = some 66 ∧
    some (66 : Nat) ≠ some 60 := by
  refine ⟨by decide, by decide, by decide⟩

/-- C3 amended: over every sequence of cycles the stored checkpoint of a
chain is monotonically non-decreasing; but it advances whenever the reported
height exceeds it, regardless of fetch contents or notifier outcomes (the
only-after-successful-notify half fails, see the counterexample). -/
theorem C3_checkpoint_monotone :
    (∀ (chainName : String) (inputs : List CycleInput)
       (lastBlocks : List (String × Nat)) (v : Nat),
       List.lookup chainName lastBlocks = some v →
       ∃ w, List.lookup chainName (runCycles chainName lastBlocks inputs) =
              some w ∧ v ≤ w) ∧
    (∀ (lastBlocks : List (String × Nat)) (chainName : String)
       (currentBlock : Nat) (fetch : Nat → Nat → List EthTx)
       (trackedWallets : List String) (notifyOk : EthTx → Bool) (v : Nat),
       List.lookup chainName lastBlocks = some v → v < currentBlock →
       List.lookup chainName
           (checkChain lastBlocks chainName currentBlock fetch trackedWallets
             notifyOk).lastBlocks = some currentBlock) := by
  constructor
  · intro chainName inputs
    induction inputs with
    | nil => exact fun lastBlocks v h => ⟨v, h, le_refl v⟩
    | cons c rest ih =>
        intro lastBlocks v h
        by_cases hc : v < c.currentBlock
        · have h1 : List.lookup chainName
              (checkChain lastBlocks chainName c.currentBlock c.fetch
                c.trackedWallets c.notifyOk).lastBlocks = some c.currentBlock := by
            simp [checkChain, h, hc, lookup_mapInsert_self]
          obtain ⟨w, hw, hle⟩ := ih _ _ h1
          exact ⟨w, by simpa [runCycles] using hw,
            le_trans (le_of_lt hc) hle⟩
        · have h1 : List.lookup chainName
              (checkChain lastBlocks chainName c.currentBlock c.fetch
                c.trackedWallets c.notifyOk).lastBlocks = some v := by
            simp [checkChain, h, hc]
          obtain ⟨w, hw, hle⟩ := ih _ _ h1
          exact ⟨w, by simpa [runCycles] using hw, hle⟩
  · intro lastBlocks chainName currentBlock fetch trackedWallets notifyOk v h hlt
    simp [checkChain, h, hlt, lookup_mapInsert_self]

/-- C3 witness: two cycles (heights 60 then 58, the second a no-op) starting
from checkpoint 50 end at a checkpoint of at least 50, and a single cycle at
height 60 with a failing notifier advances the checkpoint to 60. -/
theorem C3_checkpoint_monotone_witness :
    (∃ w, List.lookup "bsc"
        (runCycles "bsc" [("bsc", 50)]
          [{ currentBlock := 60, fetch := fun _ _ => [], trackedWallets := [],
             notifyOk := fun _ => false },
           { currentBlock := 58, fetch := fun _ _ => [], trackedWallets := [],
             notifyOk := fun _ => false }]) = some w ∧ 50 ≤ w) ∧
    List.lookup "bsc"
        (checkChain [("bsc", 50)] "bsc" 60 (fun _ _ => [ethTxMatch]) ["0xw1"]
          (fun _ => false)).lastBlocks = some 60 :=
  ⟨C3_checkpoint_monotone.1 "bsc"
      [{ currentBlock := 60, fetch := fun _ _ => [], trackedWallets := [],
         notifyOk := fun _ => false },
       { currentBlock := 58, fetch := fun _ _ => [], trackedWallets := [],
         notifyOk := fun _ => false }] [("bsc", 50)] 50 (by decide),
   C3_checkpoint_monotone.2 [("bsc", 50)] "bsc" 60 (fun _ _ => [ethTxMatch])
     ["0xw1"] (fun _ => false) 50 (by decide) (by decide)⟩

/-- remove_tracking only rewrites the caller entry of the subscribers dict:
lookups of other users are unchanged by the subscription-removal step. -/
theorem lookup_removeUserSubscription_ne
    (subscribers : List (String × List String)) (userId trackingId kq : String)
    (h : kq ≠ userId) :
    List.lookup kq (removeUserSubscription subscribers userId trackingId) =
      List.lookup kq subscribers := by
  unfold removeUserSubscription
  cases List.lookup userId subscribers with
  | none => rfl
  | some subs =>
      by_cases hc : subs.contains trackingId
      · simp only [hc, if_true]
        by_cases he : (subs.filter (fun t => t != trackingId)).isEmpty
        · simp only [he, if_true]
          exact lookup_mapErase_ne userId kq subscribers h
        · simp only [he, if_false]
          exact lookup_mapInsert_ne userId kq _ subscribers h
      · simp only [hc, Bool.false_eq_true, if_false]

/-- remove_tracking written with its let bindings inlined (definitional). -/
theorem removeTracking_eq (state : TokenTrackerState)
    (userId blockchain tokenAddress : String) :
    removeTracking state userId blockchain tokenAddress =
      (if (removeUserSubscription state.subscribers userId
             (getTrackingId blockchain tokenAddress)).any
             (fun p => p.2.contains (getTrackingId blockchain tokenAddress)) then
         { trackingConfigs := state.trackingConfigs
           activeTrackers := state.activeTrackers
           subscribers := removeUserSubscription state.subscribers userId
             (getTrackingId blockchain tokenAddress) }
       else
         { trackingConfigs := mapErase (getTrackingId blockchain tokenAddress)
             state.trackingConfigs
           activeTrackers := state.activeTrackers.filter
             (fun t => t != getTrackingId blockchain tokenAddress)
           subscribers := removeUserSubscription state.subscribers userId
             (getTrackingId blockchain tokenAddress) } : TokenTrackerState) :=
  rfl

/-- The subscribers component of the remove_tracking result is always the
post-removal dict, whichever branch the still_subscribed test takes. -/
theorem removeTracking_subscribers (state : TokenTrackerState)
    (userId blockchain tokenAddress : String) :
    (removeTracking state userId blockchain tokenAddress).subscribers =
      removeUserSubscription state.subscribers userId
        (getTrackingId blockchain tokenAddress) := by
  rw [removeTracking_eq]
  by_cases h : (removeUserSubscription state.subscribers userId
      (getTrackingId blockchain tokenAddress)).any
        (fun p => p.2.contains (getTrackingId blockchain tokenAddress)) = true
  · rw [if_pos h]
  · rw [if_neg h]

/-- C9: remove_tracking removes the shared config and its task only when the
last subscriber goes away. If another user (with a different user id) still
has the tracking id in their subscription set, the tracking_configs dict and
active_trackers are left exactly as they were; and whenever no post-removal
subscription set contains the tracking id, the config is deleted and the task
is cancelled and removed. -/
theorem C9_remove_keeps_shared_config :
    (∀ (state : TokenTrackerState)
       (userId blockchain tokenAddress otherUser : String)
       (otherSubs : List String),
       otherUser ≠ userId →
       List.lookup otherUser state.subscribers = some otherSubs →
       otherSubs.contains (getTrackingId blockchain tokenAddress) = true →
       (removeTracking state userId blockchain tokenAddress).trackingConfigs =
         state.trackingConfigs ∧
       (removeTracking state userId blockchain tokenAddress).activeTrackers =
         state.activeTrackers) ∧
    (∀ (state : TokenTrackerState) (userId blockchain tokenAddress : String),
       (removeTracking state userId blockchain tokenAddress).subscribers.any
           (fun p => p.2.contains (getTrackingId blockchain tokenAddress)) =
         false →
       List.lookup (getTrackingId blockchain tokenAddress)
           (removeTracking state userId blockchain tokenAddress).trackingConfigs =
         none ∧
       (removeTracking state userId blockchain tokenAddress).activeTrackers.contains
           (getTrackingId blockchain tokenAddress) = false) := by
  constructor
  · intro state userId blockchain tokenAddress otherUser otherSubs hne hsub hcont
    have hl : List.lookup otherUser
        (removeUserSubscription state.subscribers userId
          (getTrackingId blockchain tokenAddress)) = some otherSubs := by
      rw [lookup_removeUserSubscription_ne _ _ _ _ hne]
      exact hsub
    have hstill : (removeUserSubscription state.subscribers userId
        (getTrackingId blockchain tokenAddress)).any
          (fun p => p.2.contains (getTrackingId blockchain tokenAddress)) = true := by
      rw [List.any_eq_true]
      exact ⟨(otherUser, otherSubs), mem_of_lookup _ _ _ hl, hcont⟩
    rw [removeTracking_eq, if_pos hstill]
    exact ⟨rfl, rfl⟩
  · intro state userId blockchain tokenAddress hany
    rw [removeTracking_subscribers] at hany
    have hfalse : ¬ ((removeUserSubscription state.subscribers userId
        (getTrackingId blockchain tokenAddress)).any
          (fun p => p.2.contains (getTrackingId blockchain tokenAddress)) = true) := by
      rw [hany]
      exact Bool.false_ne_true
    rw [removeTracking_eq, if_neg hfalse]
    exact ⟨lookup_mapErase_self _ _, contains_filter_ne_self _ _⟩

/-- Shared state for the C9 witness: alice and bob both subscribe to the
bsc:0xaaa rule, whose config and task are present. -/
def sampleStateShared : TokenTrackerState :=
  { trackingConfigs := [("bsc:0xaaa", cfgBoth)]
    activeTrackers := ["bsc:0xaaa"]
    subscribers := [("alice", ["bsc:0xaaa"]), ("bob", ["bsc:0xaaa"])] }

/-- Solo state for the C9 witness: only alice subscribes to bsc:0xaaa. -/
def sampleStateSolo : TokenTrackerState :=
  { trackingConfigs := [("bsc:0xaaa", cfgBoth)]
    activeTrackers := ["bsc:0xaaa"]
    subscribers := [("alice", ["bsc:0xaaa"])] }

/-- C9 witness: alice unsubscribing while bob remains leaves config and task
untouched; alice unsubscribing as the last subscriber removes both. -/
theorem C9_remove_keeps_shared_config_witness :
    ((removeTracking sampleStateShared "alice" "bsc" "0xAAA").trackingConfigs =
        sampleStateShared.trackingConfigs ∧
     (removeTracking sampleStateShared "alice" "bsc" "0xAAA").activeTrackers =
        sampleStateShared.activeTrackers) ∧
    (List.lookup (getTrackingId "bsc" "0xAAA")
        (removeTracking sampleStateSolo "alice" "bsc" "0xAAA").trackingConfigs =
      none ∧
     (removeTracking sampleStateSolo "alice" "bsc" "0xAAA").activeTrackers.contains
        (getTrackingId "bsc" "0xAAA") = false) :=
  ⟨C9_remove_keeps_shared_config.1 sampleStateShared "alice" "bsc" "0xAAA"
      "bob" ["bsc:0xaaa"] (by decide) (by decide) (by decide),
   C9_remove_keeps_shared_config.2 sampleStateSolo "alice" "bsc" "0xAAA"
      (by decide)⟩

/-- C10: when a config already exists under the same (blockchain, lowercased
token address) key, add_tracking unconditionally replaces it with one built
from the new caller arguments (enabled, with the new mode and bounds), while
the subscription sets of all other users are unchanged. -/
theorem C10_add_overwrites_shared_config :
    ∀ (state : TokenTrackerState) (userId blockchain tokenAddress : String)
      (mode : TrackingMode) (minAmount maxAmount whaleThreshold : Option ℚ)
      (oldConfig : TrackingConfig),
      List.lookup (getTrackingId blockchain tokenAddress) state.trackingConfigs =
        some oldConfig →
      (List.lookup (getTrackingId blockchain tokenAddress)
          (addTracking state userId blockchain tokenAddress mode minAmount
            maxAmount whaleThreshold).trackingConfigs =
        some { tokenAddress := pyLower tokenAddress, blockchain := blockchain,
               mode := mode, minAmount := minAmount, maxAmount := maxAmount,
               whaleThreshold := whaleThreshold, enabled := true }) ∧
      (∀ u, u ≠ userId →
        List.lookup u (addTracking state userId blockchain tokenAddress mode
            minAmount maxAmount whaleThreshold).subscribers =
          List.lookup u state.subscribers) := by
  intro state userId blockchain tokenAddress mode minAmount maxAmount
    whaleThreshold oldConfig hold
  constructor
  · simp [addTracking, lookup_mapInsert_self]
  · intro u hu
    simp only [addTracking]
    exact lookup_mapInsert_ne userId u _ state.subscribers hu

/-- C10 witness: bob holds a min-200 rule for bsc:0xaaa; alice re-adding the
token with sell_only and no bounds replaces the stored config with the
sell_only one, and bob's subscription set is untouched. -/
theorem C10_add_overwrites_shared_config_witness :
    (List.lookup (getTrackingId "bsc" "0xAAA")
        (addTracking
          { trackingConfigs := [("bsc:0xaaa", cfgMin200)]
            activeTrackers := ["bsc:0xaaa"]
            subscribers := [("bob", ["bsc:0xaaa"])] }
          "alice" "bsc" "0xAAA" TrackingMode.sellOnly none none
          none).trackingConfigs =
      some { tokenAddress := pyLower "0xAAA", blockchain := "bsc",
             mode := TrackingMode.sellOnly, minAmount := none,
             maxAmount := none, whaleThreshold := none, enabled := true }) ∧
    List.lookup "bob"
        (addTracking
          { trackingConfigs := [("bsc:0xaaa", cfgMin200)]
            activeTrackers := ["bsc:0xaaa"]
            subscribers := [("bob", ["bsc:0xaaa"])] }
          "alice" "bsc" "0xAAA" TrackingMode.sellOnly none none
          none).subscribers =
      List.lookup "bob" [("bob", ["bsc:0xaaa"])] :=
  ⟨(C10_add_overwrites_shared_config
      { trackingConfigs := [("bsc:0xaaa", cfgMin200)]
        activeTrackers := ["bsc:0xaaa"]
        subscribers := [("bob", ["bsc:0xaaa"])] }
      "alice" "bsc" "0xAAA" TrackingMode.sellOnly none none none cfgMin200
      (by decide)).1,
   (C10_add_overwrites_shared_config
      { trackingConfigs := [("bsc:0xaaa", cfgMin200)]
        activeTrackers := ["bsc:0xaaa"]
        subscribers := [("bob", ["bsc:0xaaa"])] }
      "alice" "bsc" "0xAAA" TrackingMode.sellOnly none none none cfgMin200
      (by decide)).2 "bob" (by decide)⟩

end PyTbot
